import Mathlib

/-!
Verification development for the audiobookshelf scanner optimization fork.

The JavaScript sources are shallowly embedded as pure Lean functions:

* effects (filesystem reads, child processes, the in-memory probe cache)
  are represented by explicit outcome parameters passed in an environment
  record: an operation that can throw is an `Except String` value;
* JS exceptions are the `Except` monad: `Except.error` is an uncaught
  throw, and every `try/catch` in the source appears as a `match` on the
  body followed by the handler;
* JS numeric strings returned by ffprobe (for example "128000") are
  represented by their parsed numeric content: a raw field holds
  `some n` when `parseInt`/`parseFloat` would produce the number `n`,
  and `none` when the field is absent or unparseable (NaN);
* JS object field access with `||`-defaulting is modelled by explicit
  helpers (`jsOrInt`, `jsOrIntOpt`, `jsOrQ`, `jsOrStr`) that treat
  `none` (undefined/NaN) and `0` / "" as falsy, exactly as JS does.
-/

namespace Abs

/-- JS `parseInt(x) || d`: an absent/unparseable (`none`) or zero value falls
back to the default. -/
def jsOrInt (x : Option Int) (d : Int) : Int :=
  match x with
  | none => d
  | some n => if n = 0 then d else n

/-- JS `x || y` on two optional ints, keeping NaN/undefined (`none`) as a
possible result of the fallback. -/
def jsOrIntOpt (x : Option Int) (y : Option Int) : Option Int :=
  match x with
  | none => y
  | some n => if n = 0 then y else n

/-- JS `parseFloat(x) || d` on a rational-valued field. -/
def jsOrQ (x : Option ℚ) (d : ℚ) : ℚ :=
  match x with
  | none => d
  | some q => if q = 0 then d else q

/-- JS `x || y` on optional strings: `undefined` and the empty string are
falsy. -/
def jsOrStr (x : Option String) (y : Option String) : Option String :=
  match x with
  | none => y
  | some s => if s = "" then y else some s

/-- Boolean list-prefix test. -/
def isPrefixB [BEq α] : List α → List α → Bool
  | [], _ => true
  | _ :: _, [] => false
  | a :: as, b :: bs => a == b && isPrefixB as bs

/-- Boolean substring test: does `sub` occur contiguously inside `l`. -/
def containsSubB [BEq α] (sub : List α) : List α → Bool
  | [] => isPrefixB sub []
  | l@(_ :: bs) => isPrefixB sub l || containsSubB sub bs

/-- JS `haystack.includes(needle)`: substring containment. -/
def jsIncludes (haystack needle : String) : Bool :=
  containsSubB needle.data haystack.data

/-- Lookup in a JS object built by repeated assignment: the last binding of a
key wins. -/
def jsLookupLast (l : List (String × String)) (k : String) : Option String :=
  ((l.filter (fun p => p.1 == k)).getLast?).map (fun p => p.2)

/-- Assignment `obj[k] = v` on a JS object represented as an insertion-ordered
association list: an existing key keeps its position and gets the new value, a
new key is appended. -/
def jsSet (l : List (String × String)) (k v : String) : List (String × String) :=
  if l.any (fun p => p.1 == k) then
    l.map (fun p => if p.1 == k then (k, v) else p)
  else
    l ++ [(k, v)]

/-! ## Raw ffprobe JSON output (input of the transformations) -/

/-- One entry of the raw `streams` array of ffprobe JSON output. -/
structure RawStream where
  codec_type : Option String
  codec_name : Option String
  sample_rate : Option Int
  channels : Option Int
  channel_layout : Option String
  bit_rate : Option Int
  time_base : Option String
  /-- Value of `stream.tags?.language`. -/
  tags_language : Option String
deriving DecidableEq

/-- One entry of the raw `chapters` array of ffprobe JSON output. -/
structure RawChapter where
  start_time : Option ℚ
  end_time : Option ℚ
  /-- Value of `chapter.tags?.title`. -/
  tags_title : Option String
deriving DecidableEq

/-- The raw `format` section of ffprobe JSON output. -/
structure RawFormat where
  format_name : Option String
  duration : Option ℚ
  size : Option Int
  bit_rate : Option Int
  /-- Value of `format.tags`, an object of key/value pairs; `none` when the
  tags object is absent. -/
  tags : Option (List (String × String))
deriving DecidableEq

/-- A parsed ffprobe JSON document (`JSON.parse(stdout)`); `format` is `none`
when the document has no format section, and an absent `streams`/`chapters`
array is the empty list. -/
structure RawData where
  format : Option RawFormat
  streams : List RawStream
  chapters : List RawChapter
deriving DecidableEq

/-! ## Chapter and tag transformation (prober.js) -/

/-- A normalized chapter as produced by transformChapters/parseChapters. -/
structure Chapter where
  id : Nat
  start : ℚ
  stop : ℚ
  title : String
deriving DecidableEq

/-- transformChapters (prober.js, first class): index chapters in file order,
defaulting start/end to 0 and the title to "Chapter {index+1}". -/
def transformChapters (chapters : List RawChapter) : List Chapter :=
  chapters.mapIdx (fun index ch =>
    { id := index
      start := jsOrQ ch.start_time 0
      stop := jsOrQ ch.end_time 0
      title := match ch.tags_title with
               | some t => t
               | none => "Chapter " ++ toString (index + 1) })

/-- parseChapters (prober.js, second class): identical mapping, with an
explicit early return of [] on an absent or empty list. -/
def parseChapters (chapters : List RawChapter) : List Chapter :=
  if chapters.isEmpty then [] else transformChapters chapters

/-- The fixed tag-name mapping table of transformTags (prober.js, first
class). -/
def tagMapping : List (String × String) :=
  [("title", "tagTitle"), ("album", "tagAlbum"), ("artist", "tagArtist"),
   ("album_artist", "tagAlbumArtist"), ("composer", "tagComposer"),
   ("genre", "tagGenre"), ("date", "tagDate"), ("comment", "tagComment"),
   ("description", "tagDescription"), ("subtitle", "tagSubtitle"),
   ("publisher", "tagPublisher"), ("track", "tagTrack"), ("disc", "tagDisc"),
   ("series", "tagSeries"), ("series-part", "tagSeriesPart")]

/-- transformTags (prober.js, first class): rename known keys
(case-insensitively) through the mapping table, keep unknown keys. -/
def transformTags (tags : List (String × String)) : List (String × String) :=
  tags.foldl
    (fun acc p =>
      let nk := match (tagMapping.find? (fun m => m.1 == p.1.toLower)) with
                | some m => m.2
                | none => p.1
      jsSet acc nk p.2)
    []

/-- The normalized tag object produced by parseTags (prober.js, second
class). -/
structure ParsedTags where
  tagTitle : Option String := none
  tagAlbum : Option String := none
  tagArtist : Option String := none
  tagAlbumArtist : Option String := none
  tagGenre : Option String := none
  tagDate : Option String := none
  tagComposer : Option String := none
  tagComment : Option String := none
  tagDescription : Option String := none
  tagPublisher : Option String := none
  tagSubtitle : Option String := none
  tagTrack : Option String := none
  tagDisc : Option String := none
  tagLanguage : Option String := none
  tagISBN : Option String := none
  tagASIN : Option String := none
  tagSeries : Option String := none
  tagSeriesPart : Option String := none
deriving DecidableEq

/-- parseTags (prober.js, second class): lowercase all keys, then pick the
fixed set of normalized tags; skipped entirely when metadata is skipped or
the tags object is absent. -/
def parseTags (skipMetadata : Bool) (tags : Option (List (String × String))) :
    ParsedTags :=
  match tags with
  | none => {}
  | some ts =>
    if skipMetadata then {} else
    let normalized := ts.map (fun p => (p.1.toLower, p.2))
    let g := jsLookupLast normalized
    { tagTitle := g "title"
      tagAlbum := g "album"
      tagArtist := g "artist"
      tagAlbumArtist := jsOrStr (g "album_artist") (g "album-artist")
      tagGenre := g "genre"
      tagDate := jsOrStr (g "date") (g "year")
      tagComposer := g "composer"
      tagComment := g "comment"
      tagDescription := g "description"
      tagPublisher := g "publisher"
      tagSubtitle := g "subtitle"
      tagTrack := g "track"
      tagDisc := g "disc"
      tagLanguage := g "language"
      tagISBN := g "isbn"
      tagASIN := g "asin"
      tagSeries := g "series"
      tagSeriesPart := jsOrStr (g "series-part") (g "series_part") }

/-! ## transformMinimalData / transformFullData (prober.js, first class) -/

/-- The audio-stream record built by the transform functions. -/
structure AudioStreamT where
  codec : Option String
  sample_rate : Int
  channels : Int
  channel_layout : Option String
  bit_rate : Int
  time_base : Option String
  language : Option String
deriving DecidableEq

/-- The video-stream record built by all three normalizers. -/
structure VideoStreamT where
  codec : Option String
deriving DecidableEq

/-- Output of transformMinimalData/transformFullData. -/
structure TransData where
  format : Option String
  duration : ℚ
  size : Int
  /-- `none` models the NaN produced when both the container bit rate and the
  audio stream bit rate are unparseable. -/
  bit_rate : Option Int
  audio_stream : Option AudioStreamT
  video_stream : Option VideoStreamT
  chapters : List Chapter
  tags : List (String × String)
deriving DecidableEq

/-- The predicate `s.codec_type === 'audio'` used by all three normalizers. -/
def isAudioStream (s : RawStream) : Bool := s.codec_type == some "audio"

/-- The predicate `s.codec_type === 'video'`. -/
def isVideoStream (s : RawStream) : Bool := s.codec_type == some "video"

/-- transformMinimalData (prober.js lines 122-146): minimal normalization;
bit rate falls back to the audio stream's own raw bit rate, tags stay empty. -/
def transformMinimalData (data : RawData) : TransData :=
  let format := data.format.getD ⟨none, none, none, none, none⟩
  let audioStream := data.streams.find? isAudioStream
  let videoStream := data.streams.find? isVideoStream
  { format := format.format_name
    duration := jsOrQ format.duration 0
    size := jsOrInt format.size 0
    bit_rate := jsOrIntOpt format.bit_rate
      (match audioStream with
       | some a => a.bit_rate
       | none => some 0)
    audio_stream := audioStream.map (fun a =>
      { codec := a.codec_name
        sample_rate := jsOrInt a.sample_rate 0
        channels := jsOrInt a.channels 0
        channel_layout := none
        bit_rate := jsOrInt a.bit_rate 0
        time_base := a.time_base
        language := none })
    video_stream := videoStream.map (fun v => ⟨v.codec_name⟩)
    chapters := transformChapters data.chapters
    tags := [] }

/-- transformFullData (prober.js lines 153-179): full normalization; same
bit-rate fallback, plus channel layout, language and normalized tags. -/
def transformFullData (data : RawData) : TransData :=
  let format := data.format.getD ⟨none, none, none, none, none⟩
  let audioStream := data.streams.find? isAudioStream
  let videoStream := data.streams.find? isVideoStream
  { format := format.format_name
    duration := jsOrQ format.duration 0
    size := jsOrInt format.size 0
    bit_rate := jsOrIntOpt format.bit_rate
      (match audioStream with
       | some a => a.bit_rate
       | none => some 0)
    audio_stream := audioStream.map (fun a =>
      { codec := a.codec_name
        sample_rate := jsOrInt a.sample_rate 0
        channels := jsOrInt a.channels 0
        channel_layout := a.channel_layout
        bit_rate := jsOrInt a.bit_rate 0
        time_base := a.time_base
        language := a.tags_language })
    video_stream := videoStream.map (fun v => ⟨v.codec_name⟩)
    chapters := transformChapters data.chapters
    tags := transformTags (format.tags.getD []) }

/-! ## parseProbeData (prober.js, second class, lines 473-513) -/

/-- The audio-stream record built by parseProbeData; `channels` and
`sample_rate` are passed through raw (no parseInt). -/
structure AudioStream2 where
  codec : Option String
  bit_rate : Int
  channels : Option Int
  channel_layout : Option String
  sample_rate : Option Int
  time_base : Option String
  language : Option String
deriving DecidableEq

/-- Output of parseProbeData. -/
structure ProbeData2 where
  format : Option String
  duration : ℚ
  size : Int
  bit_rate : Int
  audio_stream : AudioStream2
  video_stream : Option VideoStreamT
  tags : ParsedTags
  chapters : List Chapter
deriving DecidableEq

/-- parseProbeData (prober.js lines 473-513): requires a format section and an
audio stream, otherwise throws; the container bit rate defaults to 0 with no
fallback to the stream bit rate. -/
def parseProbeData (skipMetadata : Bool) (rawData : RawData) :
    Except String ProbeData2 :=
  match rawData.format with
  | none => .error "Invalid ffprobe output"
  | some fmt =>
    match rawData.streams.find? isAudioStream with
    | none => .error "No audio stream found"
    | some audioStream =>
      let videoStream := rawData.streams.find? isVideoStream
      .ok
        { format := fmt.format_name
          duration := jsOrQ fmt.duration 0
          size := jsOrInt fmt.size 0
          bit_rate := jsOrInt fmt.bit_rate 0
          audio_stream :=
            { codec := audioStream.codec_name
              bit_rate := jsOrInt audioStream.bit_rate 0
              channels := audioStream.channels
              channel_layout := audioStream.channel_layout
              sample_rate := audioStream.sample_rate
              time_base := audioStream.time_base
              language := audioStream.tags_language }
          video_stream := videoStream.map (fun v => ⟨v.codec_name⟩)
          tags := if skipMetadata then {} else parseTags skipMetadata fmt.tags
          chapters := parseChapters rawData.chapters }

/-! ## doProbe close handler (node-ffprobe wrapper, prober.js lines 618-713) -/

/-- Observable outcome of one child-process run of ffprobe as seen by the
close handler: the exit code (`none` when killed by a signal), the collected
stderr chunks, and the result of `JSON.parse` on the joined stdout (`none`
when unparseable). -/
structure ProcRun where
  exitCode : Option Int
  stderrChunks : List String
  stdoutParse : Option RawData
deriving DecidableEq

/-- The close handler of doProbe: reject when the exit code is nonzero AND
stderr produced data; otherwise resolve with the JSON parse of stdout,
rejecting only if that parse fails. -/
def doProbeClose (run : ProcRun) : Except String RawData :=
  if run.exitCode != some 0 && !run.stderrChunks.isEmpty then
    .error "ffprobe exited with nonzero code"
  else
    match run.stdoutParse with
    | some result => .ok result
    | none => .error "Failed to parse ffprobe output"

/-! ## ProbeCache statistics (ProbeCache.js) -/

/-- The mutable `this.stats` counters of the ProbeCache singleton. -/
structure CacheCounters where
  hits : Nat
  misses : Nat
  errors : Nat
deriving DecidableEq

/-- Rounding to one decimal place, half up: the numeric content of
JavaScript `x.toFixed(1)` for the nonnegative rationals produced by
getHitRate. -/
def roundTo1 (x : ℚ) : ℚ := ((⌊10 * x + 1 / 2⌋ : ℤ) : ℚ) / 10

/-- getHitRate (ProbeCache.js lines 160-164): the percentage
`hits / (hits + misses) * 100` rendered with one decimal, "0.0" when no
lookups have happened; modelled by the numeric content of the returned
string. -/
def getHitRate (st : CacheCounters) : ℚ :=
  let total := st.hits + st.misses
  if total = 0 then 0
  else roundTo1 ((st.hits : ℚ) / (total : ℚ) * 100)

/-- The object returned by getStats (ProbeCache.js lines 170-177); `hitRate`
is the numeric content of the percentage string `getHitRate() + "%"`. -/
structure CacheStatsOut where
  hits : Nat
  misses : Nat
  errors : Nat
  size : Nat
  maxSize : Nat
  hitRate : ℚ
deriving DecidableEq

/-- getStats: spread the counters, add the current cache size, the configured
maximum size and the hit-rate percentage. -/
def getStats (st : CacheCounters) (cacheSize maxSize : Nat) : CacheStatsOut :=
  { hits := st.hits
    misses := st.misses
    errors := st.errors
    size := cacheSize
    maxSize := maxSize
    hitRate := getHitRate st }

/-! ## Retry wrapper (prober.js, first class, lines 39-53) -/

/-- Loop body of withRetry: `i` is the current 0-based attempt index,
`remaining` the attempts left, `last` the stored lastError (`none` models the
JS `undefined` before any attempt has failed). The error of the result is the
thrown `lastError`, which is still `undefined` when the attempt count was
zero. -/
def withRetryAux (fn : Nat → Except ε α) (i remaining : Nat)
    (last : Option ε) : Except (Option ε) α :=
  match remaining with
  | 0 => .error last
  | r + 1 =>
    match fn i with
    | .ok a => .ok a
    | .error e => withRetryAux fn (i + 1) r (some e)

/-- withRetry: run `fn` up to `times` times, returning the first success or
throwing the last error. The JS `fn` is stateful across calls; it is embedded
as a function of the 0-based attempt index. -/
def withRetry (fn : Nat → Except ε α) (times : Nat) : Except (Option ε) α :=
  withRetryAux fn 0 times none

/-! ## probe (prober.js, first class, lines 235-285) -/

/-- The normalized MediaProbeData object built by the first probe method
(lines 257-273). -/
structure ProbeData1 where
  embeddedCoverArt : Option String
  format : Option String
  duration : ℚ
  size : Int
  audioStream : Option AudioStreamT
  videoStream : Option VideoStreamT
  bitRate : Option Int
  codec : Option String
  timeBase : Option String
  language : Option String
  channelLayout : Option String
  channels : Option Int
  sampleRate : Option Int
  chapters : List Chapter
  audioMetaTags : List (String × String)
deriving DecidableEq

/-- Lines 257-273: map a transform result into the MediaProbeData shape;
optional chaining (`?.`) is `Option.bind`/`Option.map`, and
`result.video_stream?.codec || null` maps an empty codec string to null. -/
def normalizeProbe1 (result : TransData) : ProbeData1 :=
  { embeddedCoverArt := jsOrStr (result.video_stream.bind (fun v => v.codec)) none
    format := result.format
    duration := result.duration
    size := result.size
    audioStream := result.audio_stream
    videoStream := result.video_stream
    bitRate := result.bit_rate
    codec := result.audio_stream.bind (fun a => a.codec)
    timeBase := result.audio_stream.bind (fun a => a.time_base)
    language := result.audio_stream.bind (fun a => a.language)
    channelLayout := result.audio_stream.bind (fun a => a.channel_layout)
    channels := result.audio_stream.map (fun a => a.channels)
    sampleRate := result.audio_stream.map (fun a => a.sample_rate)
    chapters := result.chapters
    audioMetaTags := result.tags }

/-- One attempt of the protected probe: probeMinimal/probeFull run ffprobe,
JSON.parse the stdout (both outcomes supplied by the environment as
`attempts i`) and transform the result, wrapping any error message. -/
def probeAttempt (useMinimal : Bool) (attempts : Nat → Except String RawData)
    (i : Nat) : Except String TransData :=
  match attempts i with
  | .error e =>
    .error ((if useMinimal then "ffprobe minimal failed: "
             else "ffprobe full failed: ") ++ e)
  | .ok raw =>
    .ok (if useMinimal then transformMinimalData raw else transformFullData raw)

/-- Environment of one call to the first probe method: the cache lookup
result (ProbeCache.get catches internally and never throws), the probe-mode
switch, the per-attempt ffprobe outcomes, the configured retry count, and
whether the overall timeout fired first. -/
structure ProbeEnv1 where
  cached : Option ProbeData1
  useMinimal : Bool
  attempts : Nat → Except String RawData
  retryTimes : Nat
  timedOut : Bool

/-- Result object handed to the caller of the first probe method. -/
inductive ProbeResult1 where
  | success (d : ProbeData1)
  | errObj (msg : String)
deriving DecidableEq

/-- True exactly on the error-description result object. -/
def ProbeResult1.isErr : ProbeResult1 → Bool
  | .success _ => false
  | .errObj _ => true

/-- Observable outcome of the first probe method: the returned object plus
the list of ProbeCache.set calls it made. -/
structure ProbeOutcome1 where
  result : ProbeResult1
  cacheWrites : List ProbeData1
deriving DecidableEq

/-- probe (first class, lines 235-285). An `Except.error` result models an
exception escaping the method; the try/catch around the protected probe is
the final match. A lastError that is still `undefined` (retry count 0) makes
the catch block itself throw when reading `error.message`. -/
def probe1 (env : ProbeEnv1) : Except String ProbeOutcome1 :=
  match env.cached with
  | some d => .ok ⟨.success d, []⟩
  | none =>
    let protectedOutcome : Except (Option String) TransData :=
      if env.timedOut then .error (some "Probe timeout")
      else withRetry (probeAttempt env.useMinimal env.attempts) env.retryTimes
    match protectedOutcome with
    | .ok result =>
      let probeData := normalizeProbe1 result
      .ok ⟨.success probeData, [probeData]⟩
    | .error (some m) => .ok ⟨.errObj m, []⟩
    | .error none => .error "TypeError: cannot read message of undefined"

/-! ## cleanupTempFile and probe (prober.js, second class, lines 373-433) -/

/-- cleanupTempFile (lines 373-381): unlink the file only when the path is
truthy and contains the temp directory as a substring; any unlink error is
swallowed. The returned list holds the successfully deleted paths; an
`Except.error` result would model an exception escaping to the caller. -/
def cleanupTempFile (tempProbeDir : String) (unlinkFails : Bool)
    (tempFile : Option String) : Except String (List String) :=
  let body : Except String (List String) :=
    match tempFile with
    | none => .ok []
    | some f =>
      if f != "" && jsIncludes f tempProbeDir then
        if unlinkFails then .error "unlink failed" else .ok [f]
      else .ok []
  match body with
  | .ok l => .ok l
  | .error _ => .ok []

/-- Environment of one call to the second probe method. `headRead` models
`scanConfig.USE_PARTIAL_READ !== false`; `headReadOutcome` is the temp-file
path produced by copying the head of the source file, or the copy failure.
The two ffprobe fields give the combined execFile+JSON.parse outcome on the
temp file and on the original file respectively. -/
structure ProbeEnv2 where
  cacheEnabled : Bool
  cached : Option ProbeData2
  headRead : Bool
  headReadOutcome : Except String String
  ffprobeTemp : Except String RawData
  ffprobeOrig : Except String RawData
  skipMetadata : Bool
  unlinkFails : Bool

/-- Result object handed to the caller of the second probe method. -/
inductive ProbeResult2 where
  | success (d : ProbeData2)
  | errObj (msg : String)
deriving DecidableEq

/-- True exactly on the error-description result object. -/
def ProbeResult2.isErr : ProbeResult2 → Bool
  | .success _ => false
  | .errObj _ => true

/-- Observable outcome of the second probe method: the returned object, the
ProbeCache.set calls made, and the temp files successfully unlinked in the
finally block. -/
structure ProbeOutcome2 where
  result : ProbeResult2
  cacheWrites : List ProbeData2
  unlinked : List String
deriving DecidableEq

/-- runFFProbe (lines 438-468): execFile with bounded analyze/probe limits,
JSON.parse, then parseProbeData; every failure is rethrown with the
"FFProbe failed:" prefix. -/
def runFFProbe (env : ProbeEnv2) (onTemp : Bool) : Except String ProbeData2 :=
  match (if onTemp then env.ffprobeTemp else env.ffprobeOrig) with
  | .error e => .error ("FFProbe failed: " ++ e)
  | .ok raw =>
    match parseProbeData env.skipMetadata raw with
    | .error e => .error ("FFProbe failed: " ++ e)
    | .ok d => .ok d

/-- probe (second class, lines 386-433). The cache is consulted first; on a
miss the head-read optimization is tried with fallback to the original file
(inner try/catch), ffprobe runs, the result is cached when caching is on, and
the catch turns any error into a result object; the finally block cleans up
the temp file on every path. -/
def probe2 (tempProbeDir : String) (env : ProbeEnv2) :
    Except String ProbeOutcome2 :=
  match (if env.cacheEnabled then env.cached else none) with
  | some d => .ok ⟨.success d, [], []⟩
  | none =>
    let tempFile : Option String :=
      if env.headRead then
        match env.headReadOutcome with
        | .ok tf => some tf
        | .error _ => none
      else none
    let tryResult : Except String (ProbeData2 × List ProbeData2) :=
      match runFFProbe env tempFile.isSome with
      | .error e => .error e
      | .ok result => .ok (result, if env.cacheEnabled then [result] else [])
    let unlinked : List String :=
      match tempFile with
      | none => []
      | some tf =>
        if tf != "" then
          match cleanupTempFile tempProbeDir env.unlinkFails (some tf) with
          | .ok l => l
          | .error _ => []
        else []
    match tryResult with
    | .ok (d, writes) => .ok ⟨.success d, writes, unlinked⟩
    | .error e => .ok ⟨.errObj e, [], unlinked⟩

/-! ## ScanReconciler (LibraryItemScanData.js and scanConfig.js)

`ignoreMeta` is the IGNORE_FILE_METADATA_CHANGES flag: `true` is the
Tolerant policy, `false` the Strict policy. -/

/-- The metadata sub-object of a library file record. -/
structure FileMetadata where
  path : String
  relPath : String
  size : Int
  mtimeMs : Int
  ctimeMs : Int
deriving DecidableEq

/-- A library file record (persisted or freshly scanned). -/
structure LibraryFile where
  ino : Int
  metadata : FileMetadata
  isSupplementary : Bool
  isEBookFile : Bool
  updatedAt : Int
deriving DecidableEq

/-- The persisted library item record mutated in place by
checkLibraryItemData. Timestamps are optional because a persisted record may
lack them (`existingLibraryItem.mtime?.valueOf()`). -/
structure LibraryItem where
  libraryFolderId : String
  path : String
  relPath : String
  isFile : Bool
  ino : Int
  mtime : Option Int
  ctime : Option Int
  birthtime : Option Int
  isMissing : Bool
  libraryFiles : List LibraryFile
  size : Int
  lastScan : Option Int
  lastScanVersion : Option String
deriving DecidableEq

/-- The freshly scanned candidate (`this` in LibraryItemScanData). -/
structure ScanData where
  libraryFolderId : String
  path : String
  relPath : String
  isFile : Bool
  ino : Int
  mtimeMs : Int
  ctimeMs : Int
  birthtimeMs : Int
  libraryFiles : List LibraryFile
deriving DecidableEq

/-- isLibraryFileMatch (scanConfig.js lines 21-33): path equality when both
paths are truthy; otherwise inode equality, but only under Strict policy and
when both inodes are truthy. -/
def isLibraryFileMatch (ignoreMeta : Bool) (file1 file2 : LibraryFile) : Bool :=
  if file1.metadata.path != "" && file2.metadata.path != "" then
    file1.metadata.path == file2.metadata.path
  else if !ignoreMeta && file1.ino != 0 && file2.ino != 0 then
    file1.ino == file2.ino
  else false

/-- One iteration of the `for (const key in existingLibraryFile.metadata)`
loop of compareUpdateLibraryFile (lines 153-185): returns the updated value
and whether the difference counted as a change. Timestamp keys are silently
synced under Tolerant; path/relPath/size differences always count; any other
difference counts only under Strict. -/
def updMetaKey [DecidableEq α] (ignoreMeta isTimestampKey isRealChangeKey : Bool)
    (exv scv : α) : α × Bool :=
  if ignoreMeta && isTimestampKey then (scv, false)
  else if exv ≠ scv then (scv, isRealChangeKey || !ignoreMeta)
  else (exv, false)

/-- compareUpdateLibraryFile (LibraryItemScanData.js lines 141-192): sync the
inode (silently under Tolerant), walk the metadata keys, and stamp
`updatedAt` when anything really changed. Returns the mutated existing file
and the hasChanges flag. -/
def compareUpdateLibraryFile (ignoreMeta : Bool) (now : Int)
    (ex sc : LibraryFile) : LibraryFile × Bool :=
  let inoUpd : Int × Bool :=
    if ignoreMeta then (sc.ino, false)
    else if ex.ino ≠ sc.ino then (sc.ino, true)
    else (ex.ino, false)
  let pathUpd := updMetaKey ignoreMeta false true ex.metadata.path sc.metadata.path
  let relUpd := updMetaKey ignoreMeta false true ex.metadata.relPath sc.metadata.relPath
  let sizeUpd := updMetaKey ignoreMeta false true ex.metadata.size sc.metadata.size
  let mtUpd := updMetaKey ignoreMeta true false ex.metadata.mtimeMs sc.metadata.mtimeMs
  let ctUpd := updMetaKey ignoreMeta true false ex.metadata.ctimeMs sc.metadata.ctimeMs
  let hasChanges := inoUpd.2 || pathUpd.2 || relUpd.2 || sizeUpd.2 || mtUpd.2 || ctUpd.2
  ({ ex with
      ino := inoUpd.1
      metadata :=
        { path := pathUpd.1, relPath := relUpd.1, size := sizeUpd.1,
          mtimeMs := mtUpd.1, ctimeMs := ctUpd.1 }
      updatedAt := if hasChanges then now else ex.updatedAt },
   hasChanges)

/-- The file-matching step of checkLibraryItemData (lines 79-88): find a
candidate by exact path, and only under Strict fall back to finding one by
inode. -/
def findMatch (ignoreMeta : Bool) (cands : List LibraryFile)
    (ex : LibraryFile) : Option LibraryFile :=
  match cands.find? (fun lf => lf.metadata.path == ex.metadata.path) with
  | some m => some m
  | none =>
    if !ignoreMeta then cands.find? (fun lf => lf.ino == ex.ino)
    else none

/-- Loop state of the per-existing-file loop of checkLibraryItemData:
the existing files kept so far (mutated in place on match), the removed and
modified reports, the not-yet-matched candidates, and the accumulated
hasChanges contribution of the loop. -/
structure FileLoopState where
  kept : List LibraryFile
  removed : List LibraryFile
  modified : List (LibraryFile × LibraryFile)
  added : List LibraryFile
  hasChanges : Bool
deriving DecidableEq

/-- One iteration of the loop over the existing files (lines 78-103). -/
def fileLoopStep (ignoreMeta : Bool) (now : Int) (cands : List LibraryFile)
    (st : FileLoopState) (ex : LibraryFile) : FileLoopState :=
  match findMatch ignoreMeta cands ex with
  | none =>
    { st with removed := st.removed ++ [ex], hasChanges := true }
  | some m =>
    let added := st.added.filter (fun lf => lf ≠ m)
    let upd := compareUpdateLibraryFile ignoreMeta now ex m
    { st with
        kept := st.kept ++ [upd.1]
        added := added
        modified := if upd.2 then st.modified ++ [(ex, upd.1)] else st.modified
        hasChanges := st.hasChanges || upd.2 }

/-- The whole per-file loop: iterate the existing files against the full
candidate list, starting from `libraryFilesAdded = this.libraryFiles`. -/
def fileLoop (ignoreMeta : Bool) (now : Int) (cands exs : List LibraryFile) :
    FileLoopState :=
  exs.foldl (fileLoopStep ignoreMeta now cands) ⟨[], [], [], cands, false⟩

/-- The supplementary-flagging applied to each added e-book file
(lines 110-112). -/
def flagEBook (lf : LibraryFile) : LibraryFile :=
  if lf.isEBookFile then { lf with isSupplementary := true } else lf

/-- The item-level key comparison of checkLibraryItemData (lines 21-41):
`ino` participates only under Strict; differing keys are adopted from the
candidate; path/relPath differences also set hasPathChange. Returns the
updated item, hasChanges and hasPathChange. -/
def checkItemKeys (ignoreMeta : Bool) (item : LibraryItem) (scan : ScanData) :
    LibraryItem × Bool × Bool :=
  let inoUpd : Int × Bool :=
    if ignoreMeta then (item.ino, false)
    else if item.ino ≠ scan.ino then (scan.ino, true)
    else (item.ino, false)
  let folderUpd : String × Bool :=
    if item.libraryFolderId ≠ scan.libraryFolderId then (scan.libraryFolderId, true)
    else (item.libraryFolderId, false)
  let pathUpd : String × Bool :=
    if item.path ≠ scan.path then (scan.path, true) else (item.path, false)
  let relUpd : String × Bool :=
    if item.relPath ≠ scan.relPath then (scan.relPath, true) else (item.relPath, false)
  let isFileUpd : Bool × Bool :=
    if item.isFile ≠ scan.isFile then (scan.isFile, true) else (item.isFile, false)
  ({ item with
      ino := inoUpd.1, libraryFolderId := folderUpd.1, path := pathUpd.1,
      relPath := relUpd.1, isFile := isFileUpd.1 },
   inoUpd.2 || folderUpd.2 || pathUpd.2 || relUpd.2 || isFileUpd.2,
   pathUpd.2 || relUpd.2)

/-- The timestamp step of checkLibraryItemData (lines 44-66): under Strict
each differing timestamp is adopted and flags a change; under Tolerant all
three are silently overwritten. -/
def checkItemTimes (ignoreMeta : Bool) (item : LibraryItem) (scan : ScanData) :
    LibraryItem × Bool :=
  if ignoreMeta then
    ({ item with
        mtime := some scan.mtimeMs
        birthtime := some scan.birthtimeMs
        ctime := some scan.ctimeMs }, false)
  else
    let mtCh := item.mtime ≠ some scan.mtimeMs
    let btCh := item.birthtime ≠ some scan.birthtimeMs
    let ctCh := item.ctime ≠ some scan.ctimeMs
    ({ item with
        mtime := some scan.mtimeMs
        birthtime := some scan.birthtimeMs
        ctime := some scan.ctimeMs },
     decide mtCh || decide btCh || decide ctCh)

/-- The change report of one reconciliation run: the mutated item and the
reported flags and file lists. -/
structure ScanResult where
  item : LibraryItem
  hasChanges : Bool
  hasPathChange : Bool
  filesRemoved : List LibraryFile
  filesModified : List (LibraryFile × LibraryFile)
  filesAdded : List LibraryFile
deriving DecidableEq

/-- checkLibraryItemData (LibraryItemScanData.js lines 20-136): item-level
keys, timestamps, missing-item recovery, file matching/removal/addition, and
the aggregate size/lastScan recompute when anything changed. -/
def checkLibraryItemData (ignoreMeta : Bool) (now : Int) (version : String)
    (item : LibraryItem) (scan : ScanData) : ScanResult :=
  let keysRes := checkItemKeys ignoreMeta item scan
  let item1 := keysRes.1
  let keyCh := keysRes.2.1
  let hasPathChange := keysRes.2.2
  let timesRes := checkItemTimes ignoreMeta item1 scan
  let item2 := timesRes.1
  let timeCh := timesRes.2
  let missingCh := item2.isMissing
  let item3 := { item2 with isMissing := false }
  let st := fileLoop ignoreMeta now scan.libraryFiles item3.libraryFiles
  let added2 := st.added.map flagEBook
  let files := st.kept ++ added2
  let hasChanges := keyCh || timeCh || missingCh || st.hasChanges || !st.added.isEmpty
  let item4 := { item3 with libraryFiles := files }
  let item5 :=
    if hasChanges then
      { item4 with
          size := (files.map (fun lf => lf.metadata.size)).sum
          lastScan := some now
          lastScanVersion := some version }
    else item4
  { item := item5
    hasChanges := hasChanges
    hasPathChange := hasPathChange
    filesRemoved := st.removed
    filesModified := st.modified
    filesAdded := added2 }

/-! ## Specification-side definitions, used to compare the code against the
spec's wording. -/

/-- The container-level bit rate of a raw probe document
(`parseInt(format.bit_rate)`, `none` when the format section or the field is
absent/unparseable). -/
def containerBitRate (raw : RawData) : Option Int :=
  raw.format.bind (fun f => f.bit_rate)

/-- The primary audio stream's own raw bit rate; `some 0` when there is no
audio stream. -/
def audioOwnBitRate (raw : RawData) : Option Int :=
  match raw.streams.find? isAudioStream with
  | some a => a.bit_rate
  | none => some 0

/-- Specification-side definition, following the spec's words: the normalized
bit rate is the container-level format bit rate when present and nonzero, and
otherwise the primary audio stream's own bit rate (0 when there is no audio
stream). -/
def specBitRate (raw : RawData) : Option Int :=
  jsOrIntOpt (containerBitRate raw) (audioOwnBitRate raw)

/-- Specification-side definition, following the claim's words: a path lies
within a directory when it starts with the directory followed by the path
separator. -/
def pathWithinDir (dir p : String) : Bool :=
  p.data.take (dir.length + 1) == (dir ++ "/").data

/-- Agreement of two library files on the fields the Tolerant policy treats
as real changes: path, relPath and size. -/
def coreAgree (ex c : LibraryFile) : Prop :=
  ex.metadata.path = c.metadata.path ∧
  ex.metadata.relPath = c.metadata.relPath ∧
  ex.metadata.size = c.metadata.size

/-! ## Concrete example inputs used by witnesses and counterexamples. -/

/-- A raw probe document with a single video stream and no audio stream. -/
def rawVideoOnly : RawData :=
  { format := some ⟨some "mp4", some 10, some 5000, some 64000, none⟩
    streams := [{ codec_type := some "video", codec_name := some "h264",
                  sample_rate := none, channels := none, channel_layout := none,
                  bit_rate := none, time_base := none, tags_language := none }]
    chapters := [] }

/-- A trivial raw probe document. -/
def rawTrivial : RawData := { format := none, streams := [], chapters := [] }

/-- A raw probe document whose container bit rate is absent while the audio
stream carries its own bit rate of 128000. -/
def rawNoContainerRate : RawData :=
  { format := some ⟨some "mp4", some 10, some 5000, none, none⟩
    streams := [{ codec_type := some "audio", codec_name := some "aac",
                  sample_rate := some 44100, channels := some 2,
                  channel_layout := some "stereo", bit_rate := some 128000,
                  time_base := some "1/44100", tags_language := none }]
    chapters := [] }

/-- Cache counters after one hit and two misses. -/
def countersOneThird : CacheCounters := ⟨1, 2, 0⟩

/-- A probe environment (second class) that reaches ffprobe directly on the
original file with a given raw parse result. -/
def probeEnvOnRaw (cacheEnabled skipMetadata : Bool) (raw : RawData) :
    ProbeEnv2 :=
  { cacheEnabled := cacheEnabled
    cached := none
    headRead := false
    headReadOutcome := .error "unused"
    ffprobeTemp := .ok raw
    ffprobeOrig := .ok raw
    skipMetadata := skipMetadata
    unlinkFails := false }

/-- A probe environment (first class) whose every attempt fails. -/
def env1AllFail : ProbeEnv1 :=
  { cached := none
    useMinimal := true
    attempts := fun _ => .error "boom"
    retryTimes := 3
    timedOut := false }

/-- A probe environment (second class) in which the head-read copy succeeds
but ffprobe fails on the temp file. -/
def env2FFProbeFails : ProbeEnv2 :=
  { cacheEnabled := true
    cached := none
    headRead := true
    headReadOutcome := .ok "/tmp/abs-probe-cache/book.m4b_17.tmp"
    ffprobeTemp := .error "boom"
    ffprobeOrig := .ok rawTrivial
    skipMetadata := false
    unlinkFails := false }

/-- The outcome of probe2 on env2FFProbeFails. -/
def out2FFProbeFails : ProbeOutcome2 :=
  { result := .errObj "FFProbe failed: boom"
    cacheWrites := []
    unlinked := ["/tmp/abs-probe-cache/book.m4b_17.tmp"] }

/-- The outcome of probe1 on env1AllFail. -/
def out1AllFail : ProbeOutcome1 :=
  { result := .errObj "ffprobe minimal failed: boom"
    cacheWrites := [] }

/-- A probe function (attempt-indexed) failing on the first two attempts and
succeeding on the third. -/
def fnThirdTry : Nat → Except String Nat :=
  fun i => if i = 2 then .ok 7 else .error ("fail" ++ toString i)

/-- The per-attempt error values of fnThirdTry. -/
def errThirdTry : Nat → String := fun i => "fail" ++ toString i

/-- A persisted item whose inode is 1, for the Tolerant inode-sync
counterexample. -/
def itemInoOne : LibraryItem :=
  { libraryFolderId := "f1", path := "/lib/book", relPath := "book",
    isFile := false, ino := 1, mtime := some 10, ctime := some 10,
    birthtime := some 5, isMissing := false, libraryFiles := [],
    size := 0, lastScan := none, lastScanVersion := none }

/-- A scanned candidate for the same item whose inode is 2. -/
def scanInoTwo : ScanData :=
  { libraryFolderId := "f1", path := "/lib/book", relPath := "book",
    isFile := false, ino := 2, mtimeMs := 10, ctimeMs := 10,
    birthtimeMs := 5, libraryFiles := [] }

/-- An existing library file used by the Tolerant no-change witness. -/
def fileDriftOld : LibraryFile :=
  { ino := 7
    metadata := { path := "/lib/book/book.m4b", relPath := "book.m4b",
                  size := 1000000, mtimeMs := 50, ctimeMs := 50 }
    isSupplementary := false, isEBookFile := false, updatedAt := 1 }

/-- The same file as freshly scanned: same path/relPath/size, drifted inode
and timestamps. -/
def fileDriftNew : LibraryFile :=
  { ino := 9
    metadata := { path := "/lib/book/book.m4b", relPath := "book.m4b",
                  size := 1000000, mtimeMs := 60, ctimeMs := 61 }
    isSupplementary := false, isEBookFile := false, updatedAt := 2 }

/-- A persisted item for the Tolerant metadata-drift witness. -/
def itemDrift : LibraryItem :=
  { libraryFolderId := "f1", path := "/lib/book", relPath := "book",
    isFile := false, ino := 7, mtime := some 10, ctime := some 10,
    birthtime := some 5, isMissing := false, libraryFiles := [fileDriftOld],
    size := 1000000, lastScan := some 90, lastScanVersion := some "2.0.0" }

/-- The matching scanned candidate differing only in inode and timestamps. -/
def scanDrift : ScanData :=
  { libraryFolderId := "f1", path := "/lib/book", relPath := "book",
    isFile := false, ino := 8, mtimeMs := 20, ctimeMs := 21,
    birthtimeMs := 6, libraryFiles := [fileDriftNew] }

/-- An existing file at path A with inode 42, for the rename-by-inode
scenario. -/
def fileRenameOld : LibraryFile :=
  { ino := 42
    metadata := { path := "/lib/book/A.m4b", relPath := "A.m4b",
                  size := 500, mtimeMs := 10, ctimeMs := 10 }
    isSupplementary := false, isEBookFile := false, updatedAt := 1 }

/-- The candidate file at path B with the same inode 42. -/
def fileRenameNew : LibraryFile :=
  { ino := 42
    metadata := { path := "/lib/book/B.m4b", relPath := "B.m4b",
                  size := 500, mtimeMs := 10, ctimeMs := 10 }
    isSupplementary := false, isEBookFile := false, updatedAt := 2 }

/-- A persisted item holding the file at path A. -/
def itemRename : LibraryItem :=
  { libraryFolderId := "f1", path := "/lib/book", relPath := "book",
    isFile := false, ino := 3, mtime := some 10, ctime := some 10,
    birthtime := some 5, isMissing := false, libraryFiles := [fileRenameOld],
    size := 500, lastScan := some 90, lastScanVersion := some "2.0.0" }

/-- The scanned candidate holding the renamed file at path B. -/
def scanRename : ScanData :=
  { libraryFolderId := "f1", path := "/lib/book", relPath := "book",
    isFile := false, ino := 3, mtimeMs := 10, ctimeMs := 10,
    birthtimeMs := 5, libraryFiles := [fileRenameNew] }

/-! ## Helper lemmas -/

/-- A find? result exists exactly when some element satisfies the
predicate. -/
theorem findIsSomeEqAny {α : Type} (l : List α) (p : α → Bool) :
    (l.find? p).isSome = l.any p := by
  induction l with
  | nil => rfl
  | cons a t ih =>
    by_cases h : p a
    · simp [List.find?_cons, h]
    · simp only [Bool.not_eq_true] at h
      simp [List.find?_cons, h, ih]

/-- withRetryAux never throws the undefined lastError once an error has been
stored. -/
theorem withRetryAux_some_ne_none {α ε : Type} (fn : Nat → Except ε α) :
    ∀ (r i : Nat) (e : ε),
      withRetryAux fn i r (some e) ≠ Except.error none := by
  intro r
  induction r with
  | zero => intro i e h; simp [withRetryAux] at h
  | succ r ih =>
    intro i e h
    unfold withRetryAux at h
    cases hf : fn i with
    | ok a => rw [hf] at h; exact Except.noConfusion h
    | error e2 => rw [hf] at h; exact ih (i + 1) e2 h

/-- With at least one attempt, withRetry never throws the undefined
lastError. -/
theorem withRetry_ne_error_none {α ε : Type} (fn : Nat → Except ε α)
    (times : Nat) (h : 1 ≤ times) :
    withRetry fn times ≠ Except.error none := by
  match times, h with
  | t + 1, _ =>
    intro hcontra
    unfold withRetry withRetryAux at hcontra
    cases hf : fn 0 with
    | ok a => rw [hf] at hcontra; exact Except.noConfusion hcontra
    | error e =>
      rw [hf] at hcontra
      exact withRetryAux_some_ne_none fn t 1 e hcontra

/-- If every attempt in a window fails, withRetryAux throws the error of the
last attempt of the window (or the stored error for an empty window). -/
theorem withRetryAux_all_fail_aux {α ε : Type} (fn : Nat → Except ε α)
    (e : Nat → ε) :
    ∀ (r ii : Nat) (ee : ε),
      (∀ j, j < r → fn (ii + j) = .error (e (ii + j))) →
      withRetryAux fn ii r (some ee) =
        .error (some (if r = 0 then ee else e (ii + r - 1))) := by
  intro r
  induction r with
  | zero => intro ii ee _; simp [withRetryAux]
  | succ r ih =>
    intro ii ee hf
    have h0 : fn ii = .error (e ii) := by simpa using hf 0 (by omega)
    have hrec := ih (ii + 1) (e ii)
      (fun j hj => by
        have harith : ii + 1 + j = ii + (j + 1) := by omega
        rw [harith]; exact hf (j + 1) (by omega))
    simp only [withRetryAux, h0]
    rw [hrec]
    cases r with
    | zero => simp
    | succ r2 =>
      have h1 : r2 + 1 ≠ 0 := by omega
      have h2 : r2 + 1 + 1 ≠ 0 := by omega
      rw [if_neg h1, if_neg h2]
      have harith : ii + 1 + (r2 + 1) - 1 = ii + (r2 + 1 + 1) - 1 := by omega
      rw [harith]

/-- If every attempt fails, withRetry throws the error of the last attempt. -/
theorem withRetry_all_fail {α ε : Type} (fn : Nat → Except ε α)
    (e : Nat → ε) (times : Nat) (h1 : 1 ≤ times)
    (hfail : ∀ j, j < times → fn j = .error (e j)) :
    withRetry fn times = .error (some (e (times - 1))) := by
  match times, h1 with
  | t + 1, _ =>
    have h0 : fn 0 = .error (e 0) := hfail 0 (by omega)
    have hrec := withRetryAux_all_fail_aux fn e t 1 (e 0)
      (fun j hj => by
        have harith : 1 + j = j + 1 := by omega
        rw [harith]; exact hfail (j + 1) (by omega))
    simp only [withRetry, withRetryAux, h0]
    rw [hrec]
    cases t with
    | zero => simp
    | succ t2 =>
      have h2 : t2 + 1 ≠ 0 := by omega
      rw [if_neg h2]
      have harith : 1 + (t2 + 1) - 1 = t2 + 1 + 1 - 1 := by omega
      rw [harith]

/-- If the first failures are followed by a success inside the window,
withRetryAux returns that success. -/
theorem withRetryAux_first_success {α ε : Type} (fn : Nat → Except ε α)
    (e : Nat → ε) (v : α) :
    ∀ (k r i : Nat) (last : Option ε), k < r →
      (∀ j, j < k → fn (i + j) = .error (e (i + j))) →
      fn (i + k) = .ok v →
      withRetryAux fn i r last = .ok v := by
  intro k
  induction k with
  | zero =>
    intro r i last hk hfail hok
    match r, hk with
    | r + 1, _ =>
      have h0 : fn i = .ok v := by simpa using hok
      simp [withRetryAux, h0]
  | succ k ih =>
    intro r i last hk hfail hok
    match r, hk with
    | r + 1, _ =>
      have h0 : fn i = .error (e i) := by simpa using hfail 0 (by omega)
      simp only [withRetryAux, h0]
      exact ih r (i + 1) (some (e i)) (by omega)
        (fun j hj => by
          have harith : i + 1 + j = i + (j + 1) := by omega
          rw [harith]; exact hfail (j + 1) (by omega))
        (by
          have harith : i + 1 + k = i + (k + 1) := by omega
          rw [harith]; exact hok)

/-! ## C6 — retry wrapper semantics -/

/-- C6: a probe function failing on attempts 1..N-1 and succeeding on attempt
N yields the success result when the retry wrapper is allowed N attempts, and
a failure carrying the last attempt's error when allowed only N-1 attempts. -/
theorem c6_retry_boundary {α : Type} (fn : Nat → Except String α)
    (e : Nat → String) (v : α) (N : Nat) (hN : 2 ≤ N)
    (hfail : ∀ i, i + 1 < N → fn i = .error (e i))
    (hok : fn (N - 1) = .ok v) :
    withRetry fn N = .ok v ∧
    withRetry fn (N - 1) = .error (some (e (N - 2))) := by
  constructor
  · unfold withRetry
    exact withRetryAux_first_success fn e v (N - 1) N 0 none (by omega)
      (fun j hj => by simpa using hfail j (by omega))
      (by simpa using hok)
  · have hall := withRetry_all_fail fn e (N - 1) (by omega)
      (fun j hj => hfail j (by omega))
    rw [hall]
    have harith : N - 1 - 1 = N - 2 := by omega
    rw [harith]

/-- C6 witness: with success on the third attempt, three allowed attempts
succeed with the value 7 and two allowed attempts fail with the second
attempt's error. -/
theorem c6_retry_boundary_witness :
    withRetry fnThirdTry 3 = .ok 7 ∧
    withRetry fnThirdTry 2 = .error (some "fail1") := by
  have h := c6_retry_boundary fnThirdTry errThirdTry 7 3 (by omega)
    (fun i hi => by
      match i, hi with
      | 0, _ => rfl
      | 1, _ => rfl)
    (by rfl)
  exact ⟨h.1, h.2⟩

/-! ## C5 — doProbe success/failure criterion -/

/-- C5 counterexample: a run with nonzero exit code but empty stderr and
parseable stdout resolves, contradicting the claim that every nonzero exit
rejects. -/
theorem c5_counterexample :
    doProbeClose ⟨some 1, [], some rawTrivial⟩ = .ok rawTrivial ∧
    (some (1 : Int)) ≠ some 0 := by
  constructor
  · rfl
  · decide

/-- C5 (amended): the doProbe close handler resolves exactly when stdout is
parseable JSON and (the exit code is 0 or stderr produced no data); when it
resolves it resolves with the parsed stdout. -/
theorem c5_close_criterion_amended (run : ProcRun) :
    ((doProbeClose run).isOk =
      (run.stdoutParse.isSome &&
        (run.exitCode == some 0 || run.stderrChunks.isEmpty))) ∧
    (∀ j, run.stdoutParse = some j →
      (run.exitCode = some 0 ∨ run.stderrChunks = []) →
      doProbeClose run = .ok j) := by
  obtain ⟨ec, errs, sp⟩ := run
  constructor
  · cases hb : (ec == some 0) <;> cases he : errs.isEmpty <;> cases sp <;>
      simp [doProbeClose, Except.isOk, Except.toBool, bne, hb, he]
  · intro j hj hcond
    dsimp only at hj hcond ⊢
    subst hj
    have hfalse : (ec != some 0 && !errs.isEmpty) = false := by
      rcases hcond with h | h
      · simp [h]
      · simp [h]
    simp [doProbeClose, hfalse]

/-- C5 witness: exit code 0 with parseable stdout resolves with the parsed
document. -/
theorem c5_close_criterion_witness :
    doProbeClose ⟨some 0, ["warning"], some rawTrivial⟩ = .ok rawTrivial :=
  (c5_close_criterion_amended ⟨some 0, ["warning"], some rawTrivial⟩).2
    rawTrivial rfl (Or.inl rfl)

/-! ## C8 — cache statistics -/

/-- Half-up rounding to one decimal stays within one twentieth of its
argument. -/
theorem roundTo1_close (x : ℚ) : |roundTo1 x - x| ≤ 1 / 20 := by
  unfold roundTo1
  rw [abs_le]
  have h1 := Int.floor_le (10 * x + 1 / 2)
  have h2 := Int.sub_one_lt_floor (10 * x + 1 / 2)
  constructor
  · linarith
  · linarith

/-- C8 counterexample: with one hit and two misses, the reported hit rate is
the rounded percentage 33.3, not the ratio hits / (hits + misses) = 1/3 the
claim states. -/
theorem c8_counterexample :
    (getStats countersOneThird 5 10000).hitRate = 333 / 10 ∧
    (countersOneThird.hits : ℚ) /
      ((countersOneThird.hits : ℚ) + (countersOneThird.misses : ℚ)) = 1 / 3 ∧
    (333 / 10 : ℚ) ≠ 1 / 3 := by
  refine ⟨?_, by norm_num [countersOneThird], by norm_num⟩
  show getHitRate countersOneThird = 333 / 10
  have h333 : roundTo1 (100 / 3 : ℚ) = 333 / 10 := by
    unfold roundTo1
    have hf : ⌊(10 : ℚ) * (100 / 3) + 1 / 2⌋ = (333 : ℤ) := by
      rw [Int.floor_eq_iff]
      norm_num
    rw [hf]
    norm_num
  have harg : getHitRate countersOneThird = roundTo1 (100 / 3 : ℚ) := by
    unfold getHitRate
    dsimp only [countersOneThird]
    norm_num
  rw [harg, h333]

/-- C8 (amended): stats() returns the hit, miss and error counters, the
current and maximum sizes unchanged, and a hit rate that is the percentage
hits / (hits + misses) * 100 rounded to one decimal (as a string with a
percent sign), 0 when no lookups have happened. -/
theorem c8_stats_amended (st : CacheCounters) (cacheSize maxSize : Nat) :
    (getStats st cacheSize maxSize).hits = st.hits ∧
    (getStats st cacheSize maxSize).misses = st.misses ∧
    (getStats st cacheSize maxSize).errors = st.errors ∧
    (getStats st cacheSize maxSize).size = cacheSize ∧
    (getStats st cacheSize maxSize).maxSize = maxSize ∧
    (st.hits + st.misses = 0 → (getStats st cacheSize maxSize).hitRate = 0) ∧
    (st.hits + st.misses ≠ 0 →
      |(getStats st cacheSize maxSize).hitRate -
        (st.hits : ℚ) / ((st.hits : ℚ) + (st.misses : ℚ)) * 100| ≤ 1 / 20) := by
  refine ⟨rfl, rfl, rfl, rfl, rfl, ?_, ?_⟩
  · intro h
    simp [getStats, getHitRate, h]
  · intro h
    have hcast : ((st.hits + st.misses : Nat) : ℚ) =
        (st.hits : ℚ) + (st.misses : ℚ) := by
      exact_mod_cast rfl
    simp only [getStats, getHitRate, if_neg h]
    rw [hcast]
    exact roundTo1_close _

/-- C8 witness: the rounding bound holds at one hit and two misses. -/
theorem c8_stats_witness :
    (countersOneThird.hits + countersOneThird.misses ≠ 0) ∧
    |(getStats countersOneThird 5 10000).hitRate -
      (countersOneThird.hits : ℚ) /
        ((countersOneThird.hits : ℚ) + (countersOneThird.misses : ℚ)) * 100| ≤
      1 / 20 :=
  ⟨by decide, (c8_stats_amended countersOneThird 5 10000).2.2.2.2.2.2 (by decide)⟩

/-! ## C10 — temp-file cleanup -/

/-- C10 counterexample: a path that merely contains the temp directory as a
substring, while lying outside that directory, is still deleted. -/
theorem c10_counterexample :
    cleanupTempFile "/tmp/abs-probe-cache" false
        (some "/mnt/tmp/abs-probe-cache/x.tmp") =
      .ok ["/mnt/tmp/abs-probe-cache/x.tmp"] ∧
    pathWithinDir "/tmp/abs-probe-cache" "/mnt/tmp/abs-probe-cache/x.tmp" = false := by
  exact ⟨rfl, rfl⟩

/-- Closed form of cleanupTempFile: it always returns ok, deleting the given
path exactly when the path is truthy, contains the temp directory as a
substring, and the unlink call itself succeeds. -/
theorem cleanupTempFile_eq (dir : String) (unlinkFails : Bool)
    (tempFile : Option String) :
    cleanupTempFile dir unlinkFails tempFile =
      .ok (match tempFile with
           | none => []
           | some f =>
             if (f != "" && jsIncludes f dir) && !unlinkFails then [f]
             else []) := by
  cases tempFile with
  | none => rfl
  | some f =>
    unfold cleanupTempFile
    dsimp only
    by_cases hc : (f != "" && jsIncludes f dir) = true
    · rw [if_pos hc]
      cases unlinkFails with
      | true => simp [hc]
      | false => simp [hc]
    · rw [if_neg hc]
      have hcf : (f != "" && jsIncludes f dir) = false := by
        cases h2 : (f != "" && jsIncludes f dir)
        · rfl
        · exact absurd h2 hc
      simp [hcf]

/-- C10 (amended): cleanupTempFile never propagates an unlink failure — for
every directory, every unlink outcome (including a failing unlink) and every
temp-file argument it returns ok — and it deletes only the path it was
handed, and only when that path contains the temp probe directory as a
substring. -/
theorem c10_cleanup_amended (dir : String) (unlinkFails : Bool)
    (tempFile : Option String) (f : String) (l : List String)
    (hrun : cleanupTempFile dir unlinkFails tempFile = .ok l)
    (hmem : f ∈ l) :
    (∀ (d : String) (u : Bool) (tf : Option String),
      (cleanupTempFile d u tf).isOk = true) ∧
    tempFile = some f ∧ jsIncludes f dir = true := by
  rw [cleanupTempFile_eq] at hrun
  injection hrun with h
  refine ⟨fun d u tf => by rw [cleanupTempFile_eq]; rfl, ?_⟩
  cases tempFile with
  | none =>
    subst h
    simp at hmem
  | some g =>
    dsimp only at h
    by_cases hc : ((g != "" && jsIncludes g dir) && !unlinkFails) = true
    · rw [if_pos hc] at h
      subst h
      have hf : f = g := by simpa using hmem
      subst hf
      have h1 := (Bool.and_eq_true _ _ |>.mp hc).1
      exact ⟨rfl, (Bool.and_eq_true _ _ |>.mp h1).2⟩
    · rw [if_neg hc] at h
      subst h
      simp at hmem

/-- C10 witness: a genuine temp file inside the temp directory is deleted and
reported, and a FAILING unlink on that same path is swallowed, not
propagated. -/
theorem c10_cleanup_witness :
    (cleanupTempFile "/tmp/abs-probe-cache" true
        (some "/tmp/abs-probe-cache/book.m4b_17.tmp")).isOk = true ∧
    (some "/tmp/abs-probe-cache/book.m4b_17.tmp" =
      some "/tmp/abs-probe-cache/book.m4b_17.tmp") ∧
    jsIncludes "/tmp/abs-probe-cache/book.m4b_17.tmp" "/tmp/abs-probe-cache" = true := by
  have h := c10_cleanup_amended "/tmp/abs-probe-cache" false
    (some "/tmp/abs-probe-cache/book.m4b_17.tmp")
    "/tmp/abs-probe-cache/book.m4b_17.tmp"
    ["/tmp/abs-probe-cache/book.m4b_17.tmp"] rfl (by simp)
  exact ⟨h.1 "/tmp/abs-probe-cache" true
      (some "/tmp/abs-probe-cache/book.m4b_17.tmp"),
    h.2.1 ▸ rfl, h.2.2⟩

/-! ## C3 — stream validation -/

/-- C3 counterexample: an output with a video stream but no audio stream is
rejected by parseProbeData, contradicting the claim that one audio OR video
stream suffices. -/
theorem c3_counterexample :
    parseProbeData false rawVideoOnly = .error "No audio stream found" ∧
    rawVideoOnly.streams.any isVideoStream = true := by
  exact ⟨rfl, rfl⟩

/-- C3 (amended): parseProbeData succeeds exactly when the output has a
format section and at least one AUDIO stream (a video stream alone does not
help); on an output with a format section and no audio stream the probe
pipeline surfaces the hard failure as an error result object from its single,
un-retried ffprobe invocation. -/
theorem c3_parse_requires_audio_amended (skipMetadata cacheEnabled : Bool)
    (raw : RawData) (tempProbeDir : String)
    (hfmt : raw.format.isSome = true)
    (hnostream : raw.streams.any isAudioStream = false) :
    (∀ (sk : Bool) (rw : RawData),
      (parseProbeData sk rw).isOk =
        (rw.format.isSome && rw.streams.any isAudioStream)) ∧
    probe2 tempProbeDir (probeEnvOnRaw cacheEnabled skipMetadata raw) =
      .ok ⟨.errObj "FFProbe failed: No audio stream found", [], []⟩ := by
  constructor
  · intro sk rw
    unfold parseProbeData
    rcases rw with ⟨fmt, streams, chs⟩
    cases fmt with
    | none => simp [Except.isOk, Except.toBool]
    | some f =>
      cases hfind : streams.find? isAudioStream with
      | none =>
        have := findIsSomeEqAny streams isAudioStream
        rw [hfind] at this
        simp only [Option.isSome_none] at this
        simp [Except.isOk, Except.toBool, ← this]
      | some a =>
        have := findIsSomeEqAny streams isAudioStream
        rw [hfind] at this
        simp only [Option.isSome_some] at this
        simp [Except.isOk, Except.toBool, ← this]
  · obtain ⟨f, hf⟩ := Option.isSome_iff_exists.mp hfmt
    have hfind : raw.streams.find? isAudioStream = none := by
      cases hfind2 : raw.streams.find? isAudioStream with
      | none => rfl
      | some a =>
        have h := findIsSomeEqAny raw.streams isAudioStream
        rw [hfind2, hnostream] at h
        simp at h
    simp only [probe2, probeEnvOnRaw, runFFProbe, parseProbeData, hf, hfind,
      ite_self]
    rfl

/-- C3 witness: the video-only output has a format section, no audio stream,
and is surfaced by the probe pipeline as an error result. -/
theorem c3_parse_requires_audio_witness :
    probe2 "/tmp/abs-probe-cache" (probeEnvOnRaw false false rawVideoOnly) =
      .ok ⟨.errObj "FFProbe failed: No audio stream found", [], []⟩ :=
  (c3_parse_requires_audio_amended false false rawVideoOnly
    "/tmp/abs-probe-cache" rfl rfl).2

/-! ## C7 — bit-rate normalization -/

/-- C7 counterexample: with the container bit rate absent and an audio stream
carrying 128000, parseProbeData reports 0, not the audio stream's bit rate
the claim requires. -/
theorem c7_counterexample :
    (parseProbeData false rawNoContainerRate).map (fun d => d.bit_rate) =
      .ok 0 ∧
    specBitRate rawNoContainerRate = some 128000 ∧
    (0 : Int) ≠ 128000 := by
  exact ⟨rfl, rfl, by decide⟩

/-- C7 (amended): transformMinimalData and transformFullData implement the
spec's fallback (container bit rate when present and nonzero, else the audio
stream's own raw bit rate, 0 when no audio stream); parseProbeData does not
fall back — its bit rate is the container value or 0. -/
theorem c7_bitrate_amended (raw : RawData) (skipMetadata : Bool)
    (d : ProbeData2)
    (hparse : parseProbeData skipMetadata raw = .ok d) :
    (transformMinimalData raw).bit_rate = specBitRate raw ∧
    (transformFullData raw).bit_rate = specBitRate raw ∧
    d.bit_rate = jsOrInt (containerBitRate raw) 0 := by
  refine ⟨?_, ?_, ?_⟩
  · rcases raw with ⟨fmt, streams, chs⟩
    cases fmt <;> rfl
  · rcases raw with ⟨fmt, streams, chs⟩
    cases fmt <;> rfl
  · rcases raw with ⟨fmt, streams, chs⟩
    cases fmt with
    | none => simp [parseProbeData] at hparse
    | some f =>
      cases hfind : streams.find? isAudioStream with
      | none => simp [parseProbeData, hfind] at hparse
      | some a =>
        simp only [parseProbeData, hfind] at hparse
        cases hparse
        rfl

/-- C7 witness: the amended statement at the concrete no-container-rate
document, whose parse succeeds. -/
theorem c7_bitrate_witness :
    (transformMinimalData rawNoContainerRate).bit_rate =
      specBitRate rawNoContainerRate ∧
    (transformFullData rawNoContainerRate).bit_rate =
      specBitRate rawNoContainerRate := by
  have h := c7_bitrate_amended rawNoContainerRate false
    { format := some "mp4"
      duration := 10
      size := 5000
      bit_rate := 0
      audio_stream :=
        { codec := some "aac"
          bit_rate := 128000
          channels := some 2
          channel_layout := some "stereo"
          sample_rate := some 44100
          time_base := some "1/44100"
          language := none }
      video_stream := none
      tags := {}
      chapters := [] } rfl
  exact ⟨h.1, h.2.1⟩

/-! ## C4 — no escape past the probe boundary -/

/-- C4: with a positive retry count (the configuration parseInt(...) || 3 can
never produce 0), neither probe method lets a recoverable failure escape:
both always return a result object, either normalized probe data or an error
description. -/
theorem c4_probe_no_throw (tempProbeDir : String) (env1 : ProbeEnv1)
    (env2 : ProbeEnv2) (hretry : 1 ≤ env1.retryTimes) :
    (probe1 env1).isOk = true ∧ (probe2 tempProbeDir env2).isOk = true := by
  constructor
  · unfold probe1
    cases env1.cached with
    | some d => rfl
    | none =>
      dsimp only
      cases ht : env1.timedOut with
      | true => simp [Except.isOk, Except.toBool]
      | false =>
        simp only [Bool.false_eq_true, if_false]
        cases hw : withRetry (probeAttempt env1.useMinimal env1.attempts)
            env1.retryTimes with
        | ok v => simp [Except.isOk, Except.toBool]
        | error e =>
          cases e with
          | some m => simp [Except.isOk, Except.toBool]
          | none => exact absurd hw (withRetry_ne_error_none _ _ hretry)
  · unfold probe2
    cases hcache : (if env2.cacheEnabled then env2.cached else none) with
    | some d => rfl
    | none =>
      dsimp only
      split <;> rfl

/-- C4 witness: a probe whose every attempt fails, and a probe whose ffprobe
run fails after a successful head-read copy, both return result objects. -/
theorem c4_probe_no_throw_witness :
    (1 ≤ env1AllFail.retryTimes) ∧
    (probe1 env1AllFail).isOk = true ∧
    (probe2 "/tmp/abs-probe-cache" env2FFProbeFails).isOk = true :=
  ⟨by decide,
   (c4_probe_no_throw "/tmp/abs-probe-cache" env1AllFail env2FFProbeFails
      (by decide)).1,
   (c4_probe_no_throw "/tmp/abs-probe-cache" env1AllFail env2FFProbeFails
      (by decide)).2⟩

/-! ## C9 — only successful probe data is cached -/

/-- C9: whenever a probe call returns an error result object, it has made no
ProbeCache.set call, so an error result can never be served as a later cache
hit. -/
theorem c9_error_not_cached (tempProbeDir : String) (env1 : ProbeEnv1)
    (env2 : ProbeEnv2) (out1 : ProbeOutcome1) (out2 : ProbeOutcome2) :
    (probe1 env1 = .ok out1 → out1.result.isErr = true →
      out1.cacheWrites = []) ∧
    (probe2 tempProbeDir env2 = .ok out2 → out2.result.isErr = true →
      out2.cacheWrites = []) := by
  constructor
  · intro h1 h2
    unfold probe1 at h1
    cases hc1 : env1.cached with
    | some d =>
      rw [hc1] at h1
      dsimp only at h1
      injection h1 with h
      subst h
      rfl
    | none =>
      rw [hc1] at h1
      dsimp only at h1
      cases ht : env1.timedOut with
      | true =>
        rw [ht] at h1
        simp only [eq_self_iff_true, if_true] at h1
        injection h1 with h
        subst h
        rfl
      | false =>
        rw [ht] at h1
        simp only [Bool.false_eq_true, if_false] at h1
        cases hw : withRetry (probeAttempt env1.useMinimal env1.attempts)
            env1.retryTimes with
        | ok v =>
          rw [hw] at h1
          dsimp only at h1
          injection h1 with h
          subst h
          simp [ProbeResult1.isErr] at h2
        | error e =>
          rw [hw] at h1
          cases e with
          | some m =>
            dsimp only at h1
            injection h1 with h
            subst h
            rfl
          | none =>
            dsimp only at h1
            exact Except.noConfusion h1
  · intro h1 h2
    unfold probe2 at h1
    cases hcache : (if env2.cacheEnabled then env2.cached else none) with
    | some d =>
      rw [hcache] at h1
      dsimp only at h1
      injection h1 with h
      subst h
      rfl
    | none =>
      rw [hcache] at h1
      dsimp only at h1
      split at h1
      · injection h1 with h
        subst h
        simp [ProbeResult2.isErr] at h2
      · injection h1 with h
        subst h
        rfl

/-- C9 witness: a failing first-class probe and a failing second-class probe
each return an error result and perform no cache write. -/
theorem c9_error_not_cached_witness :
    out1AllFail.cacheWrites = [] ∧ out2FFProbeFails.cacheWrites = [] := by
  have h := c9_error_not_cached "/tmp/abs-probe-cache" env1AllFail
    env2FFProbeFails out1AllFail out2FFProbeFails
  exact ⟨h.1 rfl rfl, h.2 rfl rfl⟩

/-! ## Reconciler lemmas -/

/-- Under Tolerant policy a matched pair agreeing on path, relPath and size
produces no change. -/
theorem compareUpdate_tolerant_noChange (now : Int) (ex sc : LibraryFile)
    (h : coreAgree ex sc) :
    (compareUpdateLibraryFile true now ex sc).2 = false := by
  obtain ⟨h1, h2, h3⟩ := h
  simp [compareUpdateLibraryFile, updMetaKey, h1, h2, h3]

/-- Under Tolerant policy the matched file's inode and timestamps are always
overwritten with the scanned values. -/
theorem compareUpdate_tolerant_sync (now : Int) (ex sc : LibraryFile) :
    (compareUpdateLibraryFile true now ex sc).1.ino = sc.ino ∧
    (compareUpdateLibraryFile true now ex sc).1.metadata.mtimeMs =
      sc.metadata.mtimeMs ∧
    (compareUpdateLibraryFile true now ex sc).1.metadata.ctimeMs =
      sc.metadata.ctimeMs := by
  refine ⟨?_, ?_, ?_⟩ <;> simp [compareUpdateLibraryFile, updMetaKey]

/-- Under Tolerant policy with all item keys equal, the key comparison leaves
the item untouched and reports no change. -/
theorem checkItemKeys_tolerant_eq (item : LibraryItem) (scan : ScanData)
    (hFolder : item.libraryFolderId = scan.libraryFolderId)
    (hPath : item.path = scan.path) (hRel : item.relPath = scan.relPath)
    (hIsFile : item.isFile = scan.isFile) :
    checkItemKeys true item scan = (item, false, false) := by
  unfold checkItemKeys
  rw [if_neg (show ¬(item.libraryFolderId ≠ scan.libraryFolderId) from by
        simp [hFolder]),
      if_neg (show ¬(item.path ≠ scan.path) from by simp [hPath]),
      if_neg (show ¬(item.relPath ≠ scan.relPath) from by simp [hRel]),
      if_neg (show ¬(item.isFile ≠ scan.isFile) from by simp [hIsFile])]
  rfl

/-- The per-file loop under Tolerant policy, when the remaining existing
files agree pairwise (path, relPath, size) with the not-yet-matched
candidates and all candidate paths are distinct: every existing file matches
its candidate by path, nothing is removed or modified, every candidate is
consumed, and no change is flagged. -/
theorem fileLoop_tolerant_aux (now : Int) :
    ∀ (exs rest pre : List LibraryFile) (st : FileLoopState),
      List.Forall₂ coreAgree exs rest →
      (((pre ++ rest).map (fun lf => lf.metadata.path)).Nodup) →
      st.added = rest →
      ((exs.foldl (fileLoopStep true now (pre ++ rest)) st).added = [] ∧
       (exs.foldl (fileLoopStep true now (pre ++ rest)) st).removed =
         st.removed ∧
       (exs.foldl (fileLoopStep true now (pre ++ rest)) st).modified =
         st.modified ∧
       (exs.foldl (fileLoopStep true now (pre ++ rest)) st).hasChanges =
         st.hasChanges) := by
  intro exs
  induction exs with
  | nil =>
    intro rest pre st hf hnd hadd
    cases hf
    exact ⟨hadd, rfl, rfl, rfl⟩
  | cons ex exs ih =>
    intro rest pre st hf hnd hadd
    cases hf with
    | @cons _ c _ rest2 hrel hf2 =>
      have hpath : ex.metadata.path = c.metadata.path := hrel.1
      have hnd' : ((pre.map (fun lf => lf.metadata.path)) ++
          ((c :: rest2).map (fun lf => lf.metadata.path))).Nodup := by
        simpa [List.map_append] using hnd
      have hdisj := List.disjoint_of_nodup_append hnd'
      have hcmem : c.metadata.path ∈
          (c :: rest2).map (fun lf => lf.metadata.path) := by simp
      have hprenone : pre.find?
          (fun lf => lf.metadata.path == ex.metadata.path) = none := by
        rw [List.find?_eq_none]
        intro x hx
        simp only [beq_iff_eq]
        intro hxe
        have hxmem : x.metadata.path ∈
            pre.map (fun lf => lf.metadata.path) :=
          List.mem_map_of_mem _ hx
        rw [hxe, hpath] at hxmem
        exact hdisj hxmem hcmem
      have hfind : (pre ++ c :: rest2).find?
          (fun lf => lf.metadata.path == ex.metadata.path) = some c := by
        rw [List.find?_append, hprenone, Option.none_or]
        apply List.find?_cons_of_pos
        simp [hpath]
      have hmatch : findMatch true (pre ++ c :: rest2) ex = some c := by
        unfold findMatch
        rw [hfind]
      have hupd := compareUpdate_tolerant_noChange now ex c hrel
      have hnd2 : (((c :: rest2).map (fun lf => lf.metadata.path))).Nodup :=
        (List.nodup_append.mp hnd').2.1
      have hcnot : c.metadata.path ∉
          rest2.map (fun lf => lf.metadata.path) :=
        (List.nodup_cons.mp hnd2).1
      have hfilter : st.added.filter (fun lf => lf ≠ c) = rest2 := by
        rw [hadd]
        have hcc : (c :: rest2).filter (fun lf => lf ≠ c) =
            rest2.filter (fun lf => lf ≠ c) := by
          simp [List.filter_cons]
        rw [hcc]
        apply List.filter_eq_self.mpr
        intro d hd
        simp only [ne_eq, decide_eq_true_eq]
        intro hdc
        subst hdc
        exact hcnot (List.mem_map_of_mem _ hd)
      have hstep : fileLoopStep true now (pre ++ c :: rest2) st ex =
          { st with
              kept := st.kept ++ [(compareUpdateLibraryFile true now ex c).1]
              added := rest2 } := by
        unfold fileLoopStep
        rw [hmatch]
        dsimp only
        rw [hfilter, hupd]
        simp
      rw [List.foldl_cons, hstep]
      have hcands : pre ++ c :: rest2 = (pre ++ [c]) ++ rest2 := by simp
      rw [hcands] at hnd ⊢
      exact ih rest2 (pre ++ [c]) _ hf2 hnd rfl

/-- Projections through a conditional: a field equal on both branches is
equal on the conditional. -/
theorem ite_proj {γ : Type} {c : Prop} [Decidable c] {A B : LibraryItem}
    (g : LibraryItem → γ) (x : γ) (hA : g A = x) (hB : g B = x) :
    g (if c then A else B) = x := by
  by_cases h : c
  · rw [if_pos h]; exact hA
  · rw [if_neg h]; exact hB

/-- Under Tolerant policy every reconciliation run copies the candidate's
timestamps onto the item and leaves the item-level inode untouched. -/
theorem checkItemData_tolerant_item_fields (now : Int) (version : String)
    (it : LibraryItem) (sc : ScanData) :
    (checkLibraryItemData true now version it sc).item.ino = it.ino ∧
    (checkLibraryItemData true now version it sc).item.mtime = some sc.mtimeMs ∧
    (checkLibraryItemData true now version it sc).item.ctime = some sc.ctimeMs ∧
    (checkLibraryItemData true now version it sc).item.birthtime =
      some sc.birthtimeMs := by
  refine ⟨?_, ?_, ?_, ?_⟩
  · unfold checkLibraryItemData checkItemKeys checkItemTimes
    dsimp only
    exact ite_proj LibraryItem.ino it.ino rfl rfl
  · unfold checkLibraryItemData checkItemKeys checkItemTimes
    dsimp only
    exact ite_proj LibraryItem.mtime (some sc.mtimeMs) rfl rfl
  · unfold checkLibraryItemData checkItemKeys checkItemTimes
    dsimp only
    exact ite_proj LibraryItem.ctime (some sc.ctimeMs) rfl rfl
  · unfold checkLibraryItemData checkItemKeys checkItemTimes
    dsimp only
    exact ite_proj LibraryItem.birthtime (some sc.birthtimeMs) rfl rfl

/-! ## C1 — Tolerant policy: silent sync of inode/timestamp fields -/

/-- C1 counterexample: under Tolerant policy the item-level inode is NOT
overwritten with the candidate's value — the existing inode 1 survives a
candidate inode 2 — so the claim that all inode/timestamp fields are kept in
sync fails. -/
theorem c1_counterexample :
    (checkLibraryItemData true 100 "3.0.0" itemInoOne scanInoTwo).item.ino = 1 ∧
    itemInoOne.ino = 1 ∧ scanInoTwo.ino = 2 := by
  exact ⟨rfl, rfl, rfl⟩

/-- C1 (amended): under Tolerant policy the item-level timestamps
(mtime/ctime/birthtime) and, for matched files, the file-level ino, mtimeMs
and ctimeMs are unconditionally overwritten with the candidate's values,
while the item-level ino is left unchanged (it is neither compared nor
synced); and a run whose item and files differ from the candidate only in
these inode/timestamp fields reports no change. -/
theorem c1_tolerant_sync_amended (now : Int) (version : String)
    (item : LibraryItem) (scan : ScanData)
    (hFolder : item.libraryFolderId = scan.libraryFolderId)
    (hPath : item.path = scan.path)
    (hRel : item.relPath = scan.relPath)
    (hIsFile : item.isFile = scan.isFile)
    (hMiss : item.isMissing = false)
    (hFiles : List.Forall₂ coreAgree item.libraryFiles scan.libraryFiles)
    (hNodup : (scan.libraryFiles.map (fun lf => lf.metadata.path)).Nodup) :
    (checkLibraryItemData true now version item scan).hasChanges = false ∧
    (∀ (it : LibraryItem) (sc : ScanData),
      (checkLibraryItemData true now version it sc).item.ino = it.ino ∧
      (checkLibraryItemData true now version it sc).item.mtime =
        some sc.mtimeMs ∧
      (checkLibraryItemData true now version it sc).item.ctime =
        some sc.ctimeMs ∧
      (checkLibraryItemData true now version it sc).item.birthtime =
        some sc.birthtimeMs) ∧
    (∀ (ex sc : LibraryFile),
      (compareUpdateLibraryFile true now ex sc).1.ino = sc.ino ∧
      (compareUpdateLibraryFile true now ex sc).1.metadata.mtimeMs =
        sc.metadata.mtimeMs ∧
      (compareUpdateLibraryFile true now ex sc).1.metadata.ctimeMs =
        sc.metadata.ctimeMs) := by
  refine ⟨?_, fun it sc => checkItemData_tolerant_item_fields now version it sc,
    fun ex sc => compareUpdate_tolerant_sync now ex sc⟩
  have hnd0 : ((([] : List LibraryFile) ++ scan.libraryFiles).map
      (fun lf => lf.metadata.path)).Nodup := by
    simpa using hNodup
  have hst := fileLoop_tolerant_aux now item.libraryFiles scan.libraryFiles []
    ⟨[], [], [], scan.libraryFiles, false⟩ hFiles hnd0 rfl
  simp only [List.nil_append] at hst
  unfold checkLibraryItemData fileLoop
  rw [checkItemKeys_tolerant_eq item scan hFolder hPath hRel hIsFile]
  unfold checkItemTimes
  simp only [eq_self_iff_true, if_true]
  simp [hMiss, hst.1, hst.2.2.2]

/-- C1 witness: a Tolerant run where only the item inode/timestamps and the
matched file's inode/timestamps drifted reports no change. -/
theorem c1_tolerant_sync_witness :
    (checkLibraryItemData true 100 "3.0.0" itemDrift scanDrift).hasChanges =
      false :=
  (c1_tolerant_sync_amended 100 "3.0.0" itemDrift scanDrift rfl rfl rfl rfl rfl
    (List.Forall₂.cons ⟨rfl, rfl, rfl⟩ List.Forall₂.nil) (by decide)).1

/-! ## C2 — Strict policy: path-primary matching with inode fallback -/

/-- flagEBook never changes the file's metadata. -/
theorem flagEBook_metadata (lf : LibraryFile) :
    (flagEBook lf).metadata = lf.metadata := by
  unfold flagEBook
  split <;> rfl

/-- C2: under Strict policy an existing file whose path no longer appears
among the candidates but whose inode matches a candidate is matched to that
candidate through the inode fallback, reported as modified with a path
change, and never as one removal plus one addition. -/
theorem c2_inode_fallback (now : Int) (version : String)
    (item : LibraryItem) (scan : ScanData) (ex c : LibraryFile)
    (hfiles : item.libraryFiles = [ex])
    (hNoPath : ∀ cf ∈ scan.libraryFiles, cf.metadata.path ≠ ex.metadata.path)
    (hIno : scan.libraryFiles.find? (fun lf => lf.ino == ex.ino) = some c)
    (hNodup : (scan.libraryFiles.map (fun lf => lf.metadata.path)).Nodup) :
    (checkLibraryItemData false now version item scan).filesRemoved = [] ∧
    (checkLibraryItemData false now version item scan).filesModified =
      [(ex, (compareUpdateLibraryFile false now ex c).1)] ∧
    (compareUpdateLibraryFile false now ex c).1.metadata.path =
      c.metadata.path ∧
    (compareUpdateLibraryFile false now ex c).1.metadata.path ≠
      ex.metadata.path ∧
    c ∉ (checkLibraryItemData false now version item scan).filesAdded := by
  have hcmem : c ∈ scan.libraryFiles := List.mem_of_find?_eq_some hIno
  have hcpath : c.metadata.path ≠ ex.metadata.path := hNoPath c hcmem
  have hxc : ex.metadata.path ≠ c.metadata.path := Ne.symm hcpath
  have hfindpath : scan.libraryFiles.find?
      (fun lf => lf.metadata.path == ex.metadata.path) = none := by
    rw [List.find?_eq_none]
    intro x hx
    simp only [beq_iff_eq]
    exact hNoPath x hx
  have hmatch : findMatch false scan.libraryFiles ex = some c := by
    unfold findMatch
    rw [hfindpath]
    dsimp only
    exact hIno
  have hchange : (compareUpdateLibraryFile false now ex c).2 = true := by
    simp [compareUpdateLibraryFile, updMetaKey, hxc]
  have hpath1 : (compareUpdateLibraryFile false now ex c).1.metadata.path =
      c.metadata.path := by
    simp [compareUpdateLibraryFile, updMetaKey, hxc]
  have hstep : fileLoop false now scan.libraryFiles [ex] =
      { kept := [(compareUpdateLibraryFile false now ex c).1]
        removed := []
        modified := [(ex, (compareUpdateLibraryFile false now ex c).1)]
        added := scan.libraryFiles.filter (fun lf => lf ≠ c)
        hasChanges := true } := by
    unfold fileLoop
    simp only [List.foldl_cons, List.foldl_nil]
    unfold fileLoopStep
    rw [hmatch]
    dsimp only
    rw [hchange]
    simp
  refine ⟨?_, ?_, hpath1, by rw [hpath1]; exact hcpath, ?_⟩
  · unfold checkLibraryItemData checkItemKeys checkItemTimes
    dsimp only
    rw [hfiles]
    simp only [Bool.false_eq_true, if_false]
    rw [hstep]
  · unfold checkLibraryItemData checkItemKeys checkItemTimes
    dsimp only
    rw [hfiles]
    simp only [Bool.false_eq_true, if_false]
    rw [hstep]
  · unfold checkLibraryItemData checkItemKeys checkItemTimes
    dsimp only
    rw [hfiles]
    simp only [Bool.false_eq_true, if_false]
    rw [hstep]
    dsimp only
    intro hmem
    obtain ⟨d, hd, hdc⟩ := List.mem_map.mp hmem
    have hdmem := List.mem_filter.mp hd
    have hmeta : d.metadata = c.metadata := by
      rw [← hdc, flagEBook_metadata d]
    have hdeq : d = c :=
      List.inj_on_of_nodup_map hNodup hdmem.1 hcmem
        (congrArg FileMetadata.path hmeta)
    have hne : d ≠ c := by simpa using hdmem.2
    exact hne hdeq

/-- C2 witness: path A with inode 42 vanished, path B with inode 42 appeared;
the file is reported as modified (old path A, new path B), not removed plus
added. -/
theorem c2_inode_fallback_witness :
    (checkLibraryItemData false 7 "3.0.0" itemRename scanRename).filesRemoved =
      [] ∧
    fileRenameNew ∉
      (checkLibraryItemData false 7 "3.0.0" itemRename scanRename).filesAdded := by
  have h := c2_inode_fallback 7 "3.0.0" itemRename scanRename fileRenameOld
    fileRenameNew rfl (by decide) rfl (by decide)
  exact ⟨h.1, h.2.2.2.2⟩

end Abs
